import Mathlib

/-!
Verification development for the ExamQuestionVerification repository.

The repository's original logic is a bounded verify-fix retry loop
(`ExamQuestionVerification.main` in `exam_question_verification.py`), a
prompt-template selector keyed on `question_type`
(`verify_exam_question` / `verify_exam_question_tool`), a rewrite step
guarded on the judge verdict (`fix_exam_question`), the pydantic data
models in `schemas.py`, and a FastAPI endpoint layer
(`fastapi_server.py`).  The LLM calls themselves are opaque external
capabilities and are embedded here as oracle parameters (`judgeFn`,
`rewriteFn`, `fixModel`).  Exceptions are embedded as `Except PyErr`.
-/

/-- Internal business model `schemas.ExamQuestion`: six plain string
fields (`question`, `answer`, `question_type`, `knowledge_point`,
`knowledge_point_description`, `extra_requirement`). -/
structure ExamQuestion where
  question : String
  answer : String
  question_type : String
  knowledge_point : String
  knowledge_point_description : String
  extra_requirement : String
deriving DecidableEq, Repr

/-- Internal business model `schemas.VerificationResult`: its declared
fields are `is_compliant : bool` and `suggestion : str`. -/
structure VerificationResult where
  is_compliant : Bool
  suggestion : String
deriving DecidableEq, Repr

/-- Python exceptions that the embedded code can raise. -/
inductive PyErr where
  | attributeError
  | keyError
  | modelInvocationError (msg : String)
deriving DecidableEq, Repr

/-- A Python runtime value, as far as the embedded code inspects one. -/
inductive PyVal where
  | pyBool (b : Bool)
  | pyStr (s : String)
deriving DecidableEq, Repr

/-- Python truthiness (`bool(v)`) on the embedded values. -/
def truthy : PyVal → Bool
  | .pyBool b => b
  | .pyStr s => s ≠ ""

/-- Attribute access on a `VerificationResult` pydantic instance: the
model declares exactly the fields `is_compliant` and `suggestion`;
reading any other attribute raises `AttributeError`. -/
def vrGetAttr (r : VerificationResult) (name : String) : Except PyErr PyVal :=
  if name = "is_compliant" then .ok (.pyBool r.is_compliant)
  else if name = "suggestion" then .ok (.pyStr r.suggestion)
  else .error .attributeError

/-- The branch condition `bool(verification_result.Compliance)` used at
line 51 of `exam_question_verification.py` (and as the rewrite guard at
lines 213 and 256): it reads the attribute named `Compliance` and
converts it to a boolean. -/
def complianceTest (r : VerificationResult) : Except PyErr Bool :=
  match vrGetAttr r "Compliance" with
  | .error e => .error e
  | .ok v => .ok (truthy v)

/-- Observable events of one run of the verify-fix loop: each judge
invocation (`verify_exam_question`) and each rewrite invocation
(`fix_exam_question`), with the result or exception it produced. -/
inductive Event where
  | judgeCall (r : Except PyErr VerificationResult)
  | rewriteCall (r : Except PyErr ExamQuestion)
deriving Repr

/-- One iteration structure of `ExamQuestionVerification.main`'s
`for i in range(max_fix_attempts)` loop, with `i` the iteration index,
`fuel` the remaining iterations and `current` the latest question
(`exam_question_history[-1]`).  Each iteration judges the current
question, evaluates `bool(verification_result.Compliance)`, breaks on a
truthy verdict, and otherwise rewrites; any exception propagates.  The
returned list records the judge/rewrite invocations in order. -/
def loopAux (judgeFn : Nat → ExamQuestion → Except PyErr VerificationResult)
    (rewriteFn : Nat → ExamQuestion → VerificationResult → Except PyErr ExamQuestion) :
    Nat → Nat → ExamQuestion → Except PyErr ExamQuestion × List Event
  | _, 0, current => (.ok current, [])
  | i, fuel + 1, current =>
    match judgeFn i current with
    | .error e => (.error e, [.judgeCall (.error e)])
    | .ok vr =>
      match complianceTest vr with
      | .error e => (.error e, [.judgeCall (.ok vr)])
      | .ok true => (.ok current, [.judgeCall (.ok vr)])
      | .ok false =>
        match rewriteFn i current vr with
        | .error e => (.error e, [.judgeCall (.ok vr), .rewriteCall (.error e)])
        | .ok q2 =>
          let rest := loopAux judgeFn rewriteFn (i + 1) fuel q2
          (rest.1, .judgeCall (.ok vr) :: .rewriteCall (.ok q2) :: rest.2)

/-- `ExamQuestionVerification.main(exam_question, max_fix_attempts)`:
runs the verify-fix loop for at most `n` iterations and returns
`exam_question_history[-1]`, together with the trace of judge and
rewrite invocations. -/
def runMain (judgeFn : Nat → ExamQuestion → Except PyErr VerificationResult)
    (rewriteFn : Nat → ExamQuestion → VerificationResult → Except PyErr ExamQuestion)
    (q : ExamQuestion) (n : Nat) : Except PyErr ExamQuestion × List Event :=
  loopAux judgeFn rewriteFn 0 n q

/-- `ExamQuestionVerification.fix_exam_question(exam_question,
verification_result)`: first evaluates
`bool(verification_result.Compliance)`; on a truthy verdict it returns
the question unchanged, otherwise it invokes the rewriting model
(`fixModel`, the ReActAgent call on the filled fix prompt). -/
def fixExamQuestion (fixModel : ExamQuestion → VerificationResult → Except PyErr ExamQuestion)
    (q : ExamQuestion) (vr : VerificationResult) : Except PyErr ExamQuestion :=
  match complianceTest vr with
  | .error e => .error e
  | .ok true => .ok q
  | .ok false => fixModel q vr

/-- A sample exam question used for concrete evaluations. -/
def sampleQ : ExamQuestion :=
  ⟨"What is 2+2?", "4", "单选题", "", "", ""⟩

/-- A judge oracle that always answers compliant. -/
def judgeAlwaysTrue : Nat → ExamQuestion → Except PyErr VerificationResult :=
  fun _ _ => .ok ⟨true, ""⟩

/-- A judge oracle that always answers non-compliant. -/
def judgeAlwaysFalse : Nat → ExamQuestion → Except PyErr VerificationResult :=
  fun _ _ => .ok ⟨false, "需要修正"⟩

/-- A judge oracle whose first invocation raises a model error. -/
def judgeRaises : Nat → ExamQuestion → Except PyErr VerificationResult :=
  fun _ _ => .error (.modelInvocationError "transport failure")

/-- A rewrite oracle that never raises. -/
def rewriteOk : Nat → ExamQuestion → VerificationResult → Except PyErr ExamQuestion :=
  fun _ q _ => .ok { q with question := q.question ++ " (修正)" }

/-- A piece of a prompt template: literal text or a named slot to be
filled from the exam question's fields. -/
inductive TPiece where
  | lit (s : String)
  | slot (name : String)
deriving DecidableEq, Repr

/-- A prompt template is a sequence of pieces. -/
abbrev Template := List TPiece

/-- Modelled from the spec: `prompts.py` (the `PROMPTS` table) is not
among the sources; per §4.1 every verification template is filled by
substituting the question's `question`, `answer`, `knowledge_point`,
`knowledge_point_description` and `extra_requirement` fields into named
slots.  This is that common slot section. -/
def questionFieldSlots : Template :=
  [.lit "题目：", .slot "question",
   .lit "；答案：", .slot "answer",
   .lit "；知识点：", .slot "knowledge_point",
   .lit "；知识点描述：", .slot "knowledge_point_description",
   .lit "；额外要求：", .slot "extra_requirement"]

/-- Modelled from the spec: `PROMPTS["single_choice_verification"]`, one
of the five distinct fixed verification templates. -/
def singleChoiceVerificationT : Template :=
  .lit "单选题核查指引：请判断下列单选题是否合规。" :: questionFieldSlots

/-- Modelled from the spec: `PROMPTS["multi_choice_verification"]`. -/
def multiChoiceVerificationT : Template :=
  .lit "多选题核查指引：请判断下列多选题是否合规。" :: questionFieldSlots

/-- Modelled from the spec: `PROMPTS["fill_blank_verification"]`. -/
def fillBlankVerificationT : Template :=
  .lit "填空题核查指引：请判断下列填空题是否合规。" :: questionFieldSlots

/-- Modelled from the spec: `PROMPTS["brief_answer_verification"]`. -/
def briefAnswerVerificationT : Template :=
  .lit "简答题核查指引：请判断下列简答题是否合规。" :: questionFieldSlots

/-- Modelled from the spec: `PROMPTS["calculation_verification"]`. -/
def calculationVerificationT : Template :=
  .lit "计算题核查指引：请判断下列计算题是否合规。" :: questionFieldSlots

/-- Modelled from the spec: `PROMPTS["verification_prompt"]` after the
code's `.format(question_type=...)` step — the generic fallback template,
parameterized by (and embedding) the literal `question_type` string. -/
def genericVerificationTemplate (question_type : String) : Template :=
  .lit "通用核查指引，题目类型：" :: .lit question_type :: .lit "。" :: questionFieldSlots

/-- The template selection chain of
`ExamQuestionVerification.verify_exam_question` (lines 120-133): each of
the five canonical tags or its Chinese alias selects the matching fixed
template; any other string selects the generic fallback. -/
def selectVerificationTemplate (question_type : String) : Template :=
  if question_type = "single_choice" ∨ question_type = "单选题" then singleChoiceVerificationT
  else if question_type = "multi_choice" ∨ question_type = "多选题" then multiChoiceVerificationT
  else if question_type = "fill_blank" ∨ question_type = "填空题" then fillBlankVerificationT
  else if question_type = "brief_answer" ∨ question_type = "简答题" then briefAnswerVerificationT
  else if question_type = "calculation" ∨ question_type = "计算题" then calculationVerificationT
  else genericVerificationTemplate question_type

/-- The template selection chain of
`ExamQuestionVerification.verify_exam_question_tool` (lines 169-180),
which has no `brief_answer` / `简答题` branch. -/
def selectVerificationTemplateTool (question_type : String) : Template :=
  if question_type = "single_choice" ∨ question_type = "单选题" then singleChoiceVerificationT
  else if question_type = "multi_choice" ∨ question_type = "多选题" then multiChoiceVerificationT
  else if question_type = "fill_blank" ∨ question_type = "填空题" then fillBlankVerificationT
  else if question_type = "calculation" ∨ question_type = "计算题" then calculationVerificationT
  else genericVerificationTemplate question_type

/-- Rendering of one template piece against an exam question: the
`verification_prompt.format(question=..., answer=..., ...)` call at
lines 134-140 supplies exactly these five field slots; any other slot
name would raise `KeyError`. -/
def renderPiece (q : ExamQuestion) : TPiece → Except PyErr String
  | .lit s => .ok s
  | .slot n =>
    if n = "question" then .ok q.question
    else if n = "answer" then .ok q.answer
    else if n = "knowledge_point" then .ok q.knowledge_point
    else if n = "knowledge_point_description" then .ok q.knowledge_point_description
    else if n = "extra_requirement" then .ok q.extra_requirement
    else .error .keyError

/-- Filling a whole template: concatenation of the rendered pieces. -/
def fillTemplate (q : ExamQuestion) : Template → Except PyErr String
  | [] => .ok ""
  | p :: ps =>
    match renderPiece q p with
    | .error e => .error e
    | .ok s =>
      match fillTemplate q ps with
      | .error e => .error e
      | .ok rest => .ok (s ++ rest)

/-- The filled verification prompt that
`ExamQuestionVerification.verify_exam_question` sends to the judging
agent for a given exam question. -/
def verifyExamQuestionPrompt (q : ExamQuestion) : Except PyErr String :=
  fillTemplate q (selectVerificationTemplate q.question_type)

/-- Every literal piece of a template appears verbatim (as a substring)
in the successfully filled prompt. -/
theorem lit_mem_fill_infix (q : ExamQuestion) (s : String) :
    ∀ (t : Template) (out : String), TPiece.lit s ∈ t → fillTemplate q t = .ok out →
      s.data <:+: out.data := by
  intro t
  induction t with
  | nil => intro out hmem _; exact absurd hmem (List.not_mem_nil _)
  | cons p ps ih =>
    intro out hmem hfill
    cases hr : renderPiece q p with
    | error e => simp [fillTemplate, hr] at hfill
    | ok shead =>
      cases hrest : fillTemplate q ps with
      | error e => simp [fillTemplate, hr, hrest] at hfill
      | ok rest =>
        have hout : out = shead ++ rest := by
          simp [fillTemplate, hr, hrest] at hfill
          exact hfill.symm
        rcases List.mem_cons.mp hmem with hp | hp
        · have hs : shead = s := by
            rw [← hp] at hr
            simpa [renderPiece] using hr.symm
          refine ⟨[], rest.data, ?_⟩
          simp [hout, hs, String.data_append]
        · have hinf := ih rest hp hrest
          have : rest.data <:+: (shead ++ rest).data := by
            rw [String.data_append]
            exact (List.suffix_append shead.data rest.data).isInfix
          rw [hout]
          exact hinf.trans this

/-- `ExamQuestion.model_dump()`: the pydantic serialization of an exam
question to its dictionary form, keyed by the six field names. -/
def examQuestionModelDump (q : ExamQuestion) : List (String × String) :=
  [("question", q.question), ("answer", q.answer),
   ("question_type", q.question_type), ("knowledge_point", q.knowledge_point),
   ("knowledge_point_description", q.knowledge_point_description),
   ("extra_requirement", q.extra_requirement)]

/-- `ExamQuestion(**d)`: reconstructing an exam question from its
dictionary form; fails if a required field is missing. -/
def examQuestionFromDump (d : List (String × String)) : Option ExamQuestion :=
  match d.lookup "question", d.lookup "answer", d.lookup "question_type",
        d.lookup "knowledge_point", d.lookup "knowledge_point_description",
        d.lookup "extra_requirement" with
  | some a, some b, some c, some k, some kd, some er => some ⟨a, b, c, k, kd, er⟩
  | _, _, _, _, _, _ => none

/-- The `max_fix_attempts` constraint of `schemas.VerifyAndFixRequest`
(lines 135-140): `Field(default=3, ge=1, le=5)` — validation accepts the
value exactly when `1 ≤ n ≤ 5`. -/
def verifyAndFixRequestValidates (max_fix_attempts : Int) : Bool :=
  1 ≤ max_fix_attempts ∧ max_fix_attempts ≤ 5

/-- The attribute names defined on the `ExamQuestionVerification` class
in `exam_question_verification.py`. -/
def examQuestionVerificationMethodNames : List String :=
  ["__init__", "main", "agent_main", "verify_exam_question",
   "verify_exam_question_tool", "fix_exam_question", "fix_exam_question_tool"]

/-- A human-readable message for an embedded Python exception, as
interpolated by the endpoint's `f"...: {e}"`. -/
def pyErrMessage : PyErr → String
  | .attributeError => "AttributeError"
  | .keyError => "KeyError"
  | .modelInvocationError msg => msg

/-- `schemas.StandardResponse` / the endpoint's JSON error envelope:
`code` (0 for success), `message`, and optional `data`. -/
structure StandardResponse where
  code : Int
  message : String
  data : Option (List (String × String))
deriving DecidableEq, Repr

/-- The handler of `POST /api/v1/verify-and-fix` in `fastapi_server.py`
(lines 116-133): inside a `try`, it calls
`verifier.verify_and_fix_exam_question(eq, max_fix_attempts=...)`.  The
attribute lookup on the verifier succeeds only for names the
`ExamQuestionVerification` class defines (the verify-fix loop itself is
named `main`); a missing attribute raises `AttributeError`, which the
`except` clause turns into the 500 error envelope. -/
def verifyAndFixEndpoint (judgeFn : Nat → ExamQuestion → Except PyErr VerificationResult)
    (rewriteFn : Nat → ExamQuestion → VerificationResult → Except PyErr ExamQuestion)
    (q : ExamQuestion) (n : Nat) : StandardResponse :=
  if "verify_and_fix_exam_question" ∈ examQuestionVerificationMethodNames then
    match (runMain judgeFn rewriteFn q n).1 with
    | .ok q2 => ⟨0, "ok", some (examQuestionModelDump q2)⟩
    | .error e => ⟨500, "核查+修复失败: " ++ pyErrMessage e, none⟩
  else
    ⟨500, "核查+修复失败: " ++ pyErrMessage .attributeError, none⟩

/-- Any exception produced by a judge or rewrite invocation during the
loop becomes the loop's own result, unmodified. -/
theorem loopAux_error_propagates
    (judgeFn : Nat → ExamQuestion → Except PyErr VerificationResult)
    (rewriteFn : Nat → ExamQuestion → VerificationResult → Except PyErr ExamQuestion)
    (e : PyErr) :
    ∀ (fuel i : Nat) (current : ExamQuestion),
      (Event.judgeCall (.error e) ∈ (loopAux judgeFn rewriteFn i fuel current).2 ∨
       Event.rewriteCall (.error e) ∈ (loopAux judgeFn rewriteFn i fuel current).2) →
      (loopAux judgeFn rewriteFn i fuel current).1 = .error e := by
  intro fuel
  induction fuel with
  | zero => intro i current h; simp [loopAux] at h
  | succ fuel ih =>
    intro i current h
    cases hj : judgeFn i current with
    | error e2 =>
      simp only [loopAux, hj] at h ⊢
      rcases h with h | h
      · simp at h
        simp [h]
      · simp at h
    | ok vr =>
      have hc : complianceTest vr = .error .attributeError := by
        simp [complianceTest, vrGetAttr]
      simp only [loopAux, hj, hc] at h ⊢
      rcases h with h | h
      · simp at h
      · simp at h

/-- C1: the claim says that when the judge answers compliant on the
first call, `main` returns the original question unchanged after one
judge call and zero rewrites; the code instead evaluates
`bool(verification_result.Compliance)` on a record that only defines
`is_compliant`, so after the single judge invocation it raises
`AttributeError` and returns nothing. -/
theorem c1_compliant_first_call_raises :
    ∀ rewriteFn, runMain judgeAlwaysTrue rewriteFn sampleQ 3 =
      (.error .attributeError, [.judgeCall (.ok ⟨true, ""⟩)]) :=
  fun _ => rfl

/-- C2: the claim says that when every judge call answers non-compliant,
`main` performs `maxAttempts` judge calls and `maxAttempts` rewrites;
the code raises `AttributeError` on the `Compliance` attribute right
after the first judge invocation, so with `maxAttempts = 3` exactly one
judge call and zero rewrite calls occur and no question is returned. -/
theorem c2_always_noncompliant_raises :
    ∀ rewriteFn, runMain judgeAlwaysFalse rewriteFn sampleQ 3 =
      (.error .attributeError, [.judgeCall (.ok ⟨false, "需要修正"⟩)]) :=
  fun _ => rfl

/-- C3: `VerificationResult` defines exactly `is_compliant` and
`suggestion`; reading the attribute `Compliance` — which is what the
loop's branch condition and the rewrite guard do — raises
`AttributeError` for every judge result, so the branch condition never
selects a branch. -/
theorem c3_compliance_attribute_error :
    ∀ r : VerificationResult,
      vrGetAttr r "is_compliant" = .ok (.pyBool r.is_compliant) ∧
      vrGetAttr r "suggestion" = .ok (.pyStr r.suggestion) ∧
      vrGetAttr r "Compliance" = .error .attributeError ∧
      complianceTest r = .error .attributeError :=
  fun _ => ⟨rfl, rfl, rfl, rfl⟩

/-- C4: a question typed `单选题` gets its verification prompt built
from the single-choice template (not the generic fallback), and a
question typed `unknown_tag` gets the generic fallback, whose filled
prompt contains the literal substring `unknown_tag`. -/
theorem c4_template_selection :
    ∀ (question answer kp kpd er : String),
      selectVerificationTemplate "单选题" = singleChoiceVerificationT ∧
      singleChoiceVerificationT ≠ genericVerificationTemplate "单选题" ∧
      verifyExamQuestionPrompt ⟨question, answer, "单选题", kp, kpd, er⟩ =
        fillTemplate ⟨question, answer, "单选题", kp, kpd, er⟩ singleChoiceVerificationT ∧
      selectVerificationTemplate "unknown_tag" = genericVerificationTemplate "unknown_tag" ∧
      ∃ out, verifyExamQuestionPrompt ⟨question, answer, "unknown_tag", kp, kpd, er⟩ = .ok out ∧
        "unknown_tag".data <:+: out.data := by
  intro question answer kp kpd er
  refine ⟨rfl, by decide, rfl, rfl,
    "通用核查指引，题目类型：" ++ ("unknown_tag" ++ ("。" ++ ("题目：" ++ (question ++
      ("；答案：" ++ (answer ++ ("；知识点：" ++ (kp ++ ("；知识点描述：" ++ (kpd ++
      ("；额外要求：" ++ (er ++ "")))))))))))), rfl, ?_⟩
  exact lit_mem_fill_infix ⟨question, answer, "unknown_tag", kp, kpd, er⟩ "unknown_tag"
    (selectVerificationTemplate "unknown_tag") _ (by decide) rfl

/-- C5: the claim says every verification operation, including
`verify_exam_question_tool`, maps each of the five canonical tags and
its alias to the matching fixed template; the tool variant's selection
chain has no `brief_answer`/`简答题` branch, so those tags fall through
to the generic fallback there, while `verify_exam_question` maps them to
the brief-answer template. -/
theorem c5_tool_drops_brief_answer :
    selectVerificationTemplateTool "brief_answer" = genericVerificationTemplate "brief_answer" ∧
    selectVerificationTemplateTool "简答题" = genericVerificationTemplate "简答题" ∧
    selectVerificationTemplateTool "brief_answer" ≠ briefAnswerVerificationT ∧
    selectVerificationTemplate "brief_answer" = briefAnswerVerificationT ∧
    selectVerificationTemplate "简答题" = briefAnswerVerificationT :=
  ⟨rfl, rfl, by decide, rfl, rfl⟩

/-- C6: if a judge or rewrite invocation of the verify-fix loop raises
an exception, the loop does not catch it: the very same exception is the
loop's result, and no question is returned. -/
theorem c6_error_propagates_unmodified :
    ∀ judgeFn rewriteFn (q : ExamQuestion) (n : Nat) (e : PyErr),
      (Event.judgeCall (.error e) ∈ (runMain judgeFn rewriteFn q n).2 ∨
       Event.rewriteCall (.error e) ∈ (runMain judgeFn rewriteFn q n).2) →
      (runMain judgeFn rewriteFn q n).1 = .error e :=
  fun judgeFn rewriteFn q n e h =>
    loopAux_error_propagates judgeFn rewriteFn e n 0 q h

/-- C6 witness: a judge oracle raising a model error on the first call
makes the loop return exactly that error. -/
theorem c6_witness :
    ((Event.judgeCall (.error (.modelInvocationError "transport failure")) ∈
        (runMain judgeRaises rewriteOk sampleQ 1).2 ∨
      Event.rewriteCall (.error (.modelInvocationError "transport failure")) ∈
        (runMain judgeRaises rewriteOk sampleQ 1).2) ∧
     (runMain judgeRaises rewriteOk sampleQ 1).1 =
       .error (.modelInvocationError "transport failure")) := by
  have hmem : Event.judgeCall
      (Except.error (PyErr.modelInvocationError "transport failure")) ∈
      (runMain judgeRaises rewriteOk sampleQ 1).2 :=
    List.mem_singleton_self _
  exact ⟨Or.inl hmem,
    c6_error_propagates_unmodified judgeRaises rewriteOk sampleQ 1 _ (Or.inl hmem)⟩

/-- C7: the claim says `fix_exam_question` returns the question
unchanged for a compliant verification result; the code first evaluates
`bool(verification_result.Compliance)`, which raises `AttributeError`
for every result (compliant or not), so the question is never returned
— independently of the rewriting model. -/
theorem c7_fix_on_compliant_raises :
    ∀ (fixModel : ExamQuestion → VerificationResult → Except PyErr ExamQuestion)
      (q : ExamQuestion) (s : String),
      fixExamQuestion fixModel q ⟨true, s⟩ = .error .attributeError ∧
      fixExamQuestion fixModel q ⟨true, s⟩ ≠ .ok q :=
  fun _ _ _ => ⟨rfl, fun h => Except.noConfusion h⟩

/-- C8: with `max_fix_attempts = 0` the loop body never runs — no judge
invocation, the input question is returned — while the HTTP contract
`VerifyAndFixRequest` rejects 0 and accepts 1. -/
theorem c8_zero_attempts_no_judge :
    ∀ judgeFn rewriteFn (q : ExamQuestion),
      runMain judgeFn rewriteFn q 0 = (.ok q, []) ∧
      verifyAndFixRequestValidates 0 = false ∧
      verifyAndFixRequestValidates 1 = true :=
  fun _ _ _ => ⟨rfl, rfl, rfl⟩

/-- C9: serializing an `ExamQuestion` to its dictionary form and
reconstructing it through the constructor reproduces the original value,
all six fields identical (empty-string fields included). -/
theorem c9_model_dump_roundtrip :
    ∀ q : ExamQuestion, examQuestionFromDump (examQuestionModelDump q) = some q :=
  fun _ => rfl

/-- C10: the verify-and-fix endpoint calls the method
`verify_and_fix_exam_question`, which `ExamQuestionVerification` does
not define, so for every request the `except` clause returns the 500
error envelope and never a code-0 response. -/
theorem c10_endpoint_always_500 :
    ∀ judgeFn rewriteFn (q : ExamQuestion) (n : Nat),
      "verify_and_fix_exam_question" ∉ examQuestionVerificationMethodNames ∧
      verifyAndFixEndpoint judgeFn rewriteFn q n =
        ⟨500, "核查+修复失败: AttributeError", none⟩ ∧
      (verifyAndFixEndpoint judgeFn rewriteFn q n).code ≠ 0 :=
  fun _ _ _ _ =>
    ⟨by decide, rfl, fun h => absurd (show (500 : Int) = 0 from h) (by decide)⟩
